import Mathlib

set_option maxRecDepth 4000

/-!
Verification of the notify-icon-rs record builder and dispatcher.

The source is a thin wrapper around the Windows NOTIFYICONDATAW structure:
a builder that accumulates per-field configuration while keeping the
validity-flag bitmask in sync, and a dispatcher that hands the finished
record to the shell boundary call Shell_NotifyIconW under one of five
operation codes.

The embedding mirrors src/src/lib.rs. Machine integers (u32, handles,
the GUID) are modelled as Nat: every operation here only stores values or
takes bitwise OR of in-range values, neither of which can overflow a u32,
so no explicit modular reduction is needed. The fixed UTF-16 arrays are
modelled as lists of Nat whose length is an invariant (128 for szTip).
A tooltip string input is represented by its UTF-16 encoding, a list of
code units, since the source immediately converts via encode_utf16.
The external boundary call and the thread-local last-error value are
modelled as explicit parameters; the dispatcher additionally returns the
list of boundary calls it made, so that call counts and the record passed
across the boundary can be stated.
-/

namespace NotifyIconRs

/-- Validity-flag constants, from the windows crate Shell bindings. -/
def NIF_MESSAGE : Nat := 0x1

/-- Icon-field-valid flag. -/
def NIF_ICON : Nat := 0x2

/-- Tooltip-field-valid flag. -/
def NIF_TIP : Nat := 0x4

/-- GUID-identity-valid flag. -/
def NIF_GUID : Nat := 0x20

/-- Show-standard-tooltip flag. -/
def NIF_SHOWTIP : Nat := 0x80

/-- Operation code: add a tray icon. -/
def NIM_ADD : Nat := 0x0

/-- Operation code: modify a tray icon. -/
def NIM_MODIFY : Nat := 0x1

/-- Operation code: delete a tray icon. -/
def NIM_DELETE : Nat := 0x2

/-- Operation code: set focus on a tray icon. -/
def NIM_SETFOCUS : Nat := 0x3

/-- Operation code: set the interface version. -/
def NIM_SETVERSION : Nat := 0x4

/-- Byte size of NOTIFYICONDATAW on 64-bit Windows targets, the value
std::mem::size_of returns there (4-byte cbSize, padding, 8-byte hWnd,
uID, uFlags, uCallbackMessage, padding, hIcon, 128-unit szTip, dwState,
dwStateMask, 256-unit szInfo, the timeout/version union, 64-unit
szInfoTitle, dwInfoFlags, 16-byte guidItem, 8-byte hBalloonIcon). -/
def sizeof_NOTIFYICONDATAW : Nat := 976

/-- The wire record, mirroring the windows crate NOTIFYICONDATAW struct.
Handles (hWnd, hIcon, hBalloonIcon) are opaque references modelled as Nat;
guidItem is the 128-bit GUID as Nat; the Anonymous field is the storage
slot of the uTimeout/uVersion union. szTip has capacity 128 code units,
szInfo 256, szInfoTitle 64, kept as list-length invariants. -/
structure NOTIFYICONDATAW where
  cbSize : Nat
  hWnd : Nat
  uID : Nat
  uFlags : Nat
  uCallbackMessage : Nat
  hIcon : Nat
  szTip : List Nat
  dwState : Nat
  dwStateMask : Nat
  szInfo : List Nat
  Anonymous : Nat
  szInfoTitle : List Nat
  dwInfoFlags : Nat
  guidItem : Nat
  hBalloonIcon : Nat
deriving DecidableEq, Repr

/-- The zero value the windows crate Default derive produces for
NOTIFYICONDATAW: every scalar zero, every buffer zero-filled. -/
def NOTIFYICONDATAW.zeroed : NOTIFYICONDATAW where
  cbSize := 0
  hWnd := 0
  uID := 0
  uFlags := 0
  uCallbackMessage := 0
  hIcon := 0
  szTip := List.replicate 128 0
  dwState := 0
  dwStateMask := 0
  szInfo := List.replicate 256 0
  Anonymous := 0
  szInfoTitle := List.replicate 64 0
  dwInfoFlags := 0
  guidItem := 0
  hBalloonIcon := 0

/-- The wrapper struct: NotifyIcon holds the underlying record. -/
structure NotifyIcon where
  data : NOTIFYICONDATAW
deriving DecidableEq, Repr

namespace NotifyIcon

/-- Default::default for NotifyIcon: the zeroed record with cbSize set to
the record byte size. -/
def default : NotifyIcon where
  data := { NOTIFYICONDATAW.zeroed with cbSize := sizeof_NOTIFYICONDATAW }

/-- NotifyIcon::new, equivalent to default. -/
def new : NotifyIcon := default

/-- NotifyIcon::flag: ORs the given flag into uFlags. -/
def flag (n : NotifyIcon) (f : Nat) : NotifyIcon :=
  { n with data := { n.data with uFlags := n.data.uFlags ||| f } }

/-- NotifyIcon::window_handle: stores the handle, then sets NIF_MESSAGE. -/
def window_handle (n : NotifyIcon) (handle : Nat) : NotifyIcon :=
  ({ n with data := { n.data with hWnd := handle } }).flag NIF_MESSAGE

/-- NotifyIcon::tip. The argument enc is the UTF-16 encoding of the input
string; the source appends the terminator, then either copies the whole
encoded text into the front of szTip (when it fits) or copies the first
max_len units and forces a terminator at the last slot. The slice write
szTip[..k] = src is the list src followed by the untouched tail. -/
def tip (n : NotifyIcon) (enc : List Nat) : NotifyIcon :=
  let tip_utf16 : List Nat := enc ++ [0]
  let max_len : Nat := n.data.szTip.length - 1
  let n' : NotifyIcon :=
    if tip_utf16.length ≤ max_len + 1 then
      { n with data := { n.data with
          szTip := tip_utf16 ++ n.data.szTip.drop tip_utf16.length } }
    else
      { n with data := { n.data with
          szTip := ((tip_utf16.take max_len ++
            n.data.szTip.drop max_len).set max_len 0) } }
  n'.flag (NIF_TIP ||| NIF_SHOWTIP)

/-- NotifyIcon::icon: stores the icon handle, then sets NIF_ICON. -/
def icon (n : NotifyIcon) (i : Nat) : NotifyIcon :=
  ({ n with data := { n.data with hIcon := i } }).flag NIF_ICON

/-- NotifyIcon::balloon_icon: stores the balloon icon handle, then sets
NIF_ICON. -/
def balloon_icon (n : NotifyIcon) (i : Nat) : NotifyIcon :=
  ({ n with data := { n.data with hBalloonIcon := i } }).flag NIF_ICON

/-- NotifyIcon::callback_message: stores the message id, then sets
NIF_MESSAGE. -/
def callback_message (n : NotifyIcon) (callback_msg : Nat) : NotifyIcon :=
  ({ n with data := { n.data with uCallbackMessage := callback_msg } }).flag
    NIF_MESSAGE

/-- NotifyIcon::guid: stores the GUID, then sets NIF_GUID. -/
def guid (n : NotifyIcon) (g : Nat) : NotifyIcon :=
  ({ n with data := { n.data with guidItem := g } }).flag NIF_GUID

/-- NotifyIcon::timeout: writes the shared union slot, sets no flag. -/
def timeout (n : NotifyIcon) (t : Nat) : NotifyIcon :=
  { n with data := { n.data with Anonymous := t } }

/-- NotifyIcon::version: writes the same shared union slot, sets no flag. -/
def version (n : NotifyIcon) (v : Nat) : NotifyIcon :=
  { n with data := { n.data with Anonymous := v } }

/-- NotifyIcon::notify. The boundary call Shell_NotifyIconW is external:
it is modelled as the parameter shell, a function from operation code and
record to the boolean the call returns; lastError models the platform
error code GetLastError reports after a failed call (what
Error::from_win32 captures). The second component of the result is the
trace of boundary calls made, each with its operation code and the record
passed. -/
def notify (shell : Nat → NOTIFYICONDATAW → Bool) (lastError : Nat)
    (n : NotifyIcon) (message : Nat) :
    Except Nat Unit × List (Nat × NOTIFYICONDATAW) :=
  ((if shell message n.data then Except.ok () else Except.error lastError),
    [(message, n.data)])

/-- NotifyIcon::notify_add. -/
def notify_add (shell : Nat → NOTIFYICONDATAW → Bool) (lastError : Nat)
    (n : NotifyIcon) : Except Nat Unit × List (Nat × NOTIFYICONDATAW) :=
  n.notify shell lastError NIM_ADD

/-- NotifyIcon::notify_delete. -/
def notify_delete (shell : Nat → NOTIFYICONDATAW → Bool) (lastError : Nat)
    (n : NotifyIcon) : Except Nat Unit × List (Nat × NOTIFYICONDATAW) :=
  n.notify shell lastError NIM_DELETE

/-- NotifyIcon::notify_modify. -/
def notify_modify (shell : Nat → NOTIFYICONDATAW → Bool) (lastError : Nat)
    (n : NotifyIcon) : Except Nat Unit × List (Nat × NOTIFYICONDATAW) :=
  n.notify shell lastError NIM_MODIFY

/-- NotifyIcon::notify_set_focus. -/
def notify_set_focus (shell : Nat → NOTIFYICONDATAW → Bool) (lastError : Nat)
    (n : NotifyIcon) : Except Nat Unit × List (Nat × NOTIFYICONDATAW) :=
  n.notify shell lastError NIM_SETFOCUS

/-- NotifyIcon::notify_set_version. -/
def notify_set_version (shell : Nat → NOTIFYICONDATAW → Bool)
    (lastError : Nat) (n : NotifyIcon) :
    Except Nat Unit × List (Nat × NOTIFYICONDATAW) :=
  n.notify shell lastError NIM_SETVERSION

end NotifyIcon

/-- One configuration (builder) call, for quantifying over call
sequences. -/
inductive Call where
  | flag (f : Nat)
  | window_handle (h : Nat)
  | tip (enc : List Nat)
  | icon (i : Nat)
  | balloon_icon (i : Nat)
  | callback_message (m : Nat)
  | guid (g : Nat)
  | timeout (t : Nat)
  | version (v : Nat)
deriving DecidableEq, Repr

/-- Apply one configuration call to a record. -/
def applyCall (c : Call) (n : NotifyIcon) : NotifyIcon :=
  match c with
  | .flag f => n.flag f
  | .window_handle h => n.window_handle h
  | .tip enc => n.tip enc
  | .icon i => n.icon i
  | .balloon_icon i => n.balloon_icon i
  | .callback_message m => n.callback_message m
  | .guid g => n.guid g
  | .timeout t => n.timeout t
  | .version v => n.version v

/-- Apply a sequence of configuration calls left to right. -/
def applyCalls (l : List Call) (n : NotifyIcon) : NotifyIcon :=
  l.foldl (fun m c => applyCall c m) n

/-- The validity bits each call is specified to contribute. -/
def contrib : Call → Nat
  | .flag f => f
  | .window_handle _ => NIF_MESSAGE
  | .tip _ => NIF_TIP ||| NIF_SHOWTIP
  | .icon _ => NIF_ICON
  | .balloon_icon _ => NIF_ICON
  | .callback_message _ => NIF_MESSAGE
  | .guid _ => NIF_GUID
  | .timeout _ => 0
  | .version _ => 0

/-- Bitwise OR of the flag contributions of a call sequence. -/
def orContribs (l : List Call) : Nat :=
  l.foldr (fun c acc => contrib c ||| acc) 0

/-! Helper lemmas about the effect of each operation on uFlags and
cbSize. -/

theorem tip_uFlags (n : NotifyIcon) (enc : List Nat) :
    (n.tip enc).data.uFlags = n.data.uFlags ||| (NIF_TIP ||| NIF_SHOWTIP) := by
  unfold NotifyIcon.tip
  dsimp only
  split <;> rfl

theorem tip_cbSize (n : NotifyIcon) (enc : List Nat) :
    (n.tip enc).data.cbSize = n.data.cbSize := by
  unfold NotifyIcon.tip
  dsimp only
  split <;> rfl

theorem applyCall_uFlags (c : Call) (n : NotifyIcon) :
    (applyCall c n).data.uFlags = n.data.uFlags ||| contrib c := by
  cases c with
  | tip enc => exact tip_uFlags n enc
  | timeout t => simp [applyCall, NotifyIcon.timeout, contrib]
  | version v => simp [applyCall, NotifyIcon.version, contrib]
  | _ => rfl

theorem applyCall_cbSize (c : Call) (n : NotifyIcon) :
    (applyCall c n).data.cbSize = n.data.cbSize := by
  cases c with
  | tip enc => exact tip_cbSize n enc
  | _ => rfl

theorem applyCalls_uFlags (l : List Call) (n : NotifyIcon) :
    (applyCalls l n).data.uFlags = n.data.uFlags ||| orContribs l := by
  induction l generalizing n with
  | nil => simp [applyCalls, orContribs]
  | cons c l ih =>
    simp only [applyCalls, List.foldl_cons, orContribs, List.foldr_cons]
    rw [show List.foldl (fun m c => applyCall c m) (applyCall c n) l
        = applyCalls l (applyCall c n) from rfl, ih, applyCall_uFlags,
      Nat.lor_assoc]
    rfl

theorem applyCalls_cbSize (l : List Call) (n : NotifyIcon) :
    (applyCalls l n).data.cbSize = n.data.cbSize := by
  induction l generalizing n with
  | nil => rfl
  | cons c l ih =>
    simp only [applyCalls, List.foldl_cons]
    rw [show List.foldl (fun m c => applyCall c m) (applyCall c n) l
        = applyCalls l (applyCall c n) from rfl, ih, applyCall_cbSize]

theorem orContribs_perm {l₁ l₂ : List Call} (h : l₁.Perm l₂) :
    orContribs l₁ = orContribs l₂ := by
  induction h with
  | nil => rfl
  | cons c _ ih => simp only [orContribs, List.foldr_cons] at ih ⊢; rw [ih]
  | swap a b l =>
    simp only [orContribs, List.foldr_cons]
    rw [← Nat.lor_assoc, ← Nat.lor_assoc, Nat.lor_comm (contrib b)]
  | trans _ _ ih₁ ih₂ => exact ih₁.trans ih₂

theorem testBit_lor_right {a b : Nat} {i : Nat} (h : b.testBit i = true) :
    (a ||| b).testBit i = true := by
  simp [Nat.testBit_lor, h]

/-! Per-operation uFlags equalities (each operation routes through flag
with a constant). -/

theorem window_handle_uFlags (n : NotifyIcon) (w : Nat) :
    (n.window_handle w).data.uFlags = n.data.uFlags ||| NIF_MESSAGE := rfl

theorem icon_uFlags (n : NotifyIcon) (i : Nat) :
    (n.icon i).data.uFlags = n.data.uFlags ||| NIF_ICON := rfl

theorem balloon_icon_uFlags (n : NotifyIcon) (i : Nat) :
    (n.balloon_icon i).data.uFlags = n.data.uFlags ||| NIF_ICON := rfl

theorem callback_message_uFlags (n : NotifyIcon) (m : Nat) :
    (n.callback_message m).data.uFlags = n.data.uFlags ||| NIF_MESSAGE := rfl

theorem guid_uFlags (n : NotifyIcon) (g : Nat) :
    (n.guid g).data.uFlags = n.data.uFlags ||| NIF_GUID := rfl

/-! Behavior of the tip buffer write. -/

theorem set_at_append (l₁ : List Nat) (a v k : Nat) (h : l₁.length = k) :
    (l₁ ++ [a]).set k v = l₁ ++ [v] := by
  subst h
  induction l₁ with
  | nil => rfl
  | cons b t ih =>
    simp only [List.cons_append, List.length_cons, List.set_cons_succ, ih]

theorem tip_fits_szTip (enc : List Nat) (n : NotifyIcon)
    (hlen : n.data.szTip.length = 128) (hfit : enc.length + 1 ≤ 128) :
    (n.tip enc).data.szTip = enc ++ 0 :: n.data.szTip.drop (enc.length + 1) := by
  have hc : (enc ++ [0] : List Nat).length ≤ (n.data.szTip.length - 1) + 1 := by
    simp only [List.length_append, List.length_cons, List.length_nil, hlen]
    omega
  unfold NotifyIcon.tip
  dsimp only
  rw [if_pos hc]
  simp [NotifyIcon.flag, List.append_assoc]

theorem tip_truncates_szTip (enc : List Nat) (n : NotifyIcon)
    (hlen : n.data.szTip.length = 128) (hbig : 128 < enc.length + 1) :
    (n.tip enc).data.szTip = enc.take 127 ++ [0] := by
  have henc : 127 ≤ enc.length := by omega
  have hcc : ¬ ((enc ++ [0] : List Nat).length
      ≤ (n.data.szTip.length - 1) + 1) := by
    simp only [List.length_append, List.length_cons, List.length_nil, hlen]
    omega
  unfold NotifyIcon.tip
  dsimp only
  rw [if_neg hcc]
  simp only [NotifyIcon.flag]
  rw [hlen]
  have h127 : (128 : Nat) - 1 = 127 := rfl
  rw [h127]
  have hd1 : (n.data.szTip.drop 127).length = 1 := by
    rw [List.length_drop, hlen]
  obtain ⟨a, ha⟩ := List.length_eq_one.mp hd1
  rw [List.take_append_of_le_length henc, ha]
  exact set_at_append (enc.take 127) a 0 127 (by rw [List.length_take]; omega)

/-- C1. The claim states that whenever the encoding plus terminator fits,
the resulting buffer is the encoding followed by zero-padding, for every
record. This is false: tip only overwrites the first length-plus-one
slots, so a record whose buffer tail is nonzero (for instance after an
earlier, longer tooltip) keeps the stale units. Amended claim: the first
length-plus-one units of the buffer become the encoding plus terminator
and the remaining units are unchanged from the input record; in
particular, on the fresh default record the buffer is the encoding
followed by zero-padding with no truncation. -/
theorem tip_fits_preserves_tail (enc : List Nat) (n : NotifyIcon)
    (hlen : n.data.szTip.length = 128) (hfit : enc.length + 1 ≤ 128) :
    (n.tip enc).data.szTip = enc ++ 0 :: n.data.szTip.drop (enc.length + 1)
    ∧ (NotifyIcon.default.tip enc).data.szTip
        = enc ++ 0 :: List.replicate (127 - enc.length) 0 := by
  refine ⟨tip_fits_szTip enc n hlen hfit, ?_⟩
  rw [tip_fits_szTip enc NotifyIcon.default (by rfl) hfit]
  have hz : NotifyIcon.default.data.szTip = List.replicate 128 0 := rfl
  rw [hz, List.drop_replicate]
  have h2 : 128 - (enc.length + 1) = 127 - enc.length := by omega
  rw [h2]

/-- Witness for C1 amended, at the encoding of "hi". -/
theorem tip_fits_preserves_tail_witness :
    (NotifyIcon.default.data.szTip.length = 128
      ∧ ([104, 105] : List Nat).length + 1 ≤ 128)
    ∧ ((NotifyIcon.default.tip [104, 105]).data.szTip
        = [104, 105] ++ 0 :: NotifyIcon.default.data.szTip.drop 3
      ∧ (NotifyIcon.default.tip [104, 105]).data.szTip
        = [104, 105] ++ 0 :: List.replicate 125 0) :=
  ⟨⟨by decide, by decide⟩,
    tip_fits_preserves_tail [104, 105] NotifyIcon.default (by decide) (by decide)⟩

/-- Counterexample to C1 as stated: on the record obtained by first
setting the three-unit tooltip encoding of "xxx" (code unit 120 three
times), a second tip with the one-unit encoding of "x" fits the buffer,
yet the resulting buffer is not the encoding followed by zero-padding:
the stale third unit remains 120. -/
theorem tip_fits_zero_padding_counterexample :
    ¬ (((NotifyIcon.default.tip [120, 120, 120]).tip [120]).data.szTip
        = [120] ++ List.replicate 127 0) := by decide

/-- C2. Oversized tooltip input: when the encoding plus terminator
exceeds the 128-unit capacity, the resulting buffer is exactly the first
127 code units of the encoding followed by a zero terminator at the last
slot. Truncation is silent: tip is a total function of the record and
encoding, so no error is raised. -/
theorem tip_truncates_to_capacity (enc : List Nat) (n : NotifyIcon)
    (hlen : n.data.szTip.length = 128) (hbig : 128 < enc.length + 1) :
    (n.tip enc).data.szTip = enc.take 127 ++ [0] :=
  tip_truncates_szTip enc n hlen hbig

/-- Witness for C2, at a 200-unit encoding (the spec scenario of a
200-character all-ASCII string). -/
theorem tip_truncates_to_capacity_witness :
    (NotifyIcon.default.data.szTip.length = 128
      ∧ 128 < (List.replicate 200 120).length + 1)
    ∧ (NotifyIcon.default.tip (List.replicate 200 120)).data.szTip
        = (List.replicate 200 120).take 127 ++ [0] :=
  ⟨⟨by decide, by decide⟩,
    tip_truncates_to_capacity (List.replicate 200 120) NotifyIcon.default
      (by decide) (by decide)⟩

/-- C3. On a fresh record, the validity mask produced by any sequence of
configuration calls is the bitwise OR of the flags each call contributes,
and the mask is independent of the order of the calls: any permutation of
the sequence yields the same mask. -/
theorem flags_or_of_contributions_perm (l₁ l₂ : List Call) (h : l₁.Perm l₂) :
    (applyCalls l₁ NotifyIcon.new).data.uFlags = orContribs l₁
    ∧ (applyCalls l₁ NotifyIcon.new).data.uFlags
        = (applyCalls l₂ NotifyIcon.new).data.uFlags := by
  constructor
  · rw [applyCalls_uFlags]
    show 0 ||| orContribs l₁ = orContribs l₁
    exact Nat.zero_or _
  · rw [applyCalls_uFlags, applyCalls_uFlags, orContribs_perm h]

/-- Witness for C3: icon then window_handle against the reverse order. -/
theorem flags_or_of_contributions_perm_witness :
    ([Call.icon 5, Call.window_handle 7].Perm
      [Call.window_handle 7, Call.icon 5])
    ∧ ((applyCalls [Call.icon 5, Call.window_handle 7]
          NotifyIcon.new).data.uFlags
        = orContribs [Call.icon 5, Call.window_handle 7]
      ∧ (applyCalls [Call.icon 5, Call.window_handle 7]
          NotifyIcon.new).data.uFlags
        = (applyCalls [Call.window_handle 7, Call.icon 5]
            NotifyIcon.new).data.uFlags) :=
  ⟨by decide, flags_or_of_contributions_perm _ _ (by decide)⟩

/-- C4. Each field-populating builder call writes its field and sets the
corresponding validity bit in the same call: window_handle stores the
handle and sets bit 0 (NIF_MESSAGE); tip sets bit 2 (NIF_TIP) and bit 7
(NIF_SHOWTIP); icon and balloon_icon store their handle and set bit 1
(NIF_ICON); callback_message stores the id and sets bit 0 (NIF_MESSAGE);
guid stores the GUID and sets bit 5 (NIF_GUID). -/
theorem builder_sets_bit_with_field (n : NotifyIcon) (w i b m g : Nat)
    (enc : List Nat) :
    ((n.window_handle w).data.hWnd = w
      ∧ Nat.testBit (n.window_handle w).data.uFlags 0 = true)
    ∧ (Nat.testBit (n.tip enc).data.uFlags 2 = true
      ∧ Nat.testBit (n.tip enc).data.uFlags 7 = true)
    ∧ ((n.icon i).data.hIcon = i
      ∧ Nat.testBit (n.icon i).data.uFlags 1 = true)
    ∧ ((n.balloon_icon b).data.hBalloonIcon = b
      ∧ Nat.testBit (n.balloon_icon b).data.uFlags 1 = true)
    ∧ ((n.callback_message m).data.uCallbackMessage = m
      ∧ Nat.testBit (n.callback_message m).data.uFlags 0 = true)
    ∧ ((n.guid g).data.guidItem = g
      ∧ Nat.testBit (n.guid g).data.uFlags 5 = true) := by
  refine ⟨⟨rfl, ?_⟩, ⟨?_, ?_⟩, ⟨rfl, ?_⟩, ⟨rfl, ?_⟩, ⟨rfl, ?_⟩, ⟨rfl, ?_⟩⟩
  · rw [window_handle_uFlags]
    exact testBit_lor_right (by decide)
  · rw [tip_uFlags]
    exact testBit_lor_right (by decide)
  · rw [tip_uFlags]
    exact testBit_lor_right (by decide)
  · rw [icon_uFlags]
    exact testBit_lor_right (by decide)
  · rw [balloon_icon_uFlags]
    exact testBit_lor_right (by decide)
  · rw [callback_message_uFlags]
    exact testBit_lor_right (by decide)
  · rw [guid_uFlags]
    exact testBit_lor_right (by decide)

/-- C5. timeout and version write the same shared union slot: whichever
of the two is called later leaves exactly its own value in the slot, with
no merging and no error, in either order. -/
theorem timeout_version_shared_slot_last_wins (n : NotifyIcon)
    (ms v : Nat) :
    ((n.version v).timeout ms).data.Anonymous = ms
    ∧ ((n.timeout ms).version v).data.Anonymous = v :=
  ⟨rfl, rfl⟩

/-- C6. timeout writes the shared slot with the given value unmodified
(no clamping) and changes nothing else: the resulting record is the input
record with only the union slot replaced; in particular the validity mask
is unchanged. -/
theorem timeout_writes_slot_only (n : NotifyIcon) (ms : Nat) :
    n.timeout ms = { n with data := { n.data with Anonymous := ms } }
    ∧ (n.timeout ms).data.uFlags = n.data.uFlags
    ∧ (n.timeout ms).data.Anonymous = ms :=
  ⟨rfl, rfl, rfl⟩

theorem notify_spec (shell : Nat → NOTIFYICONDATAW → Bool) (err : Nat)
    (n : NotifyIcon) (msg : Nat) :
    (NotifyIcon.notify shell err n msg).2 = [(msg, n.data)]
    ∧ ((NotifyIcon.notify shell err n msg).1 = Except.ok ()
        ↔ shell msg n.data = true)
    ∧ (shell msg n.data = false
        → (NotifyIcon.notify shell err n msg).1 = Except.error err) := by
  unfold NotifyIcon.notify
  refine ⟨rfl, ?_, ?_⟩ <;> cases h : shell msg n.data <;> simp [h]

/-- C7. Each dispatch operation performs exactly one boundary call, with
its own operation code and the record passed unmodified; it succeeds
if and only if the boundary call returns true, and on false it returns
the typed failure carrying the most recently reported platform error
code. The singleton call trace shows there is no retry. -/
theorem dispatch_single_call_error_mapping
    (shell : Nat → NOTIFYICONDATAW → Bool) (err : Nat) (n : NotifyIcon) :
    ((NotifyIcon.notify_add shell err n).2 = [(NIM_ADD, n.data)]
      ∧ ((NotifyIcon.notify_add shell err n).1 = Except.ok ()
          ↔ shell NIM_ADD n.data = true)
      ∧ (shell NIM_ADD n.data = false
          → (NotifyIcon.notify_add shell err n).1 = Except.error err))
    ∧ ((NotifyIcon.notify_delete shell err n).2 = [(NIM_DELETE, n.data)]
      ∧ ((NotifyIcon.notify_delete shell err n).1 = Except.ok ()
          ↔ shell NIM_DELETE n.data = true)
      ∧ (shell NIM_DELETE n.data = false
          → (NotifyIcon.notify_delete shell err n).1 = Except.error err))
    ∧ ((NotifyIcon.notify_modify shell err n).2 = [(NIM_MODIFY, n.data)]
      ∧ ((NotifyIcon.notify_modify shell err n).1 = Except.ok ()
          ↔ shell NIM_MODIFY n.data = true)
      ∧ (shell NIM_MODIFY n.data = false
          → (NotifyIcon.notify_modify shell err n).1 = Except.error err))
    ∧ ((NotifyIcon.notify_set_focus shell err n).2 = [(NIM_SETFOCUS, n.data)]
      ∧ ((NotifyIcon.notify_set_focus shell err n).1 = Except.ok ()
          ↔ shell NIM_SETFOCUS n.data = true)
      ∧ (shell NIM_SETFOCUS n.data = false
          → (NotifyIcon.notify_set_focus shell err n).1 = Except.error err))
    ∧ ((NotifyIcon.notify_set_version shell err n).2
          = [(NIM_SETVERSION, n.data)]
      ∧ ((NotifyIcon.notify_set_version shell err n).1 = Except.ok ()
          ↔ shell NIM_SETVERSION n.data = true)
      ∧ (shell NIM_SETVERSION n.data = false
          → (NotifyIcon.notify_set_version shell err n).1
              = Except.error err)) :=
  ⟨notify_spec shell err n NIM_ADD, notify_spec shell err n NIM_DELETE,
    notify_spec shell err n NIM_MODIFY, notify_spec shell err n NIM_SETFOCUS,
    notify_spec shell err n NIM_SETVERSION⟩

/-- Witness for C7: under a boundary that rejects every call, add on the
fresh record returns the typed failure carrying error code 7. -/
theorem dispatch_single_call_error_mapping_witness :
    (NotifyIcon.notify_add (fun _ _ => false) 7 NotifyIcon.new).1
      = Except.error 7 :=
  (dispatch_single_call_error_mapping (fun _ _ => false) 7
    NotifyIcon.new).1.2.2 rfl

/-- C8. The size field is set at construction to the record byte size and
no operation changes it: after any sequence of configuration calls the
field still equals that constant, and the record any dispatch hands to
the boundary call carries the same constant. -/
theorem cbSize_constant_under_calls (l : List Call)
    (shell : Nat → NOTIFYICONDATAW → Bool) (err msg : Nat) :
    (applyCalls l NotifyIcon.new).data.cbSize = sizeof_NOTIFYICONDATAW
    ∧ NotifyIcon.new.data.cbSize = sizeof_NOTIFYICONDATAW
    ∧ ∀ p ∈ (NotifyIcon.notify shell err (applyCalls l NotifyIcon.new)
        msg).2, p.2.cbSize = sizeof_NOTIFYICONDATAW := by
  refine ⟨?_, rfl, ?_⟩
  · rw [applyCalls_cbSize]
    rfl
  · intro p hp
    have hp' : p = (msg, (applyCalls l NotifyIcon.new).data) := by
      simpa [NotifyIcon.notify] using hp
    rw [hp']
    show (applyCalls l NotifyIcon.new).data.cbSize = sizeof_NOTIFYICONDATAW
    rw [applyCalls_cbSize]
    rfl

/-- Witness for C8: the record passed to the boundary by a dispatch after
one icon call still carries the construction-time size. -/
theorem cbSize_constant_under_calls_witness :
    ((0 : Nat), (applyCalls [Call.icon 3] NotifyIcon.new).data).2.cbSize
      = sizeof_NOTIFYICONDATAW :=
  (cbSize_constant_under_calls [Call.icon 3] (fun _ _ => true) 0 0).2.2
    (0, (applyCalls [Call.icon 3] NotifyIcon.new).data)
    (by simp [NotifyIcon.notify])

/-- C9. flag is idempotent on the validity mask: applying flag with the
same bit twice yields the same mask as applying it once. -/
theorem flag_idempotent (n : NotifyIcon) (f : Nat) :
    ((n.flag f).flag f).data.uFlags = (n.flag f).data.uFlags := by
  show (n.data.uFlags ||| f) ||| f = n.data.uFlags ||| f
  rw [Nat.lor_assoc, Nat.or_self]

/-- C10. The validity mask is monotone: no builder call ever clears a
bit — every bit set in the input record is still set after any single
configuration call, hence after any sequence of them. -/
theorem uFlags_monotone (c : Call) (n : NotifyIcon) (i : Nat)
    (h : Nat.testBit n.data.uFlags i = true) :
    Nat.testBit (applyCall c n).data.uFlags i = true := by
  rw [applyCall_uFlags, Nat.testBit_lor, h, Bool.true_or]

/-- Witness for C10: a second call (icon) keeps NIF_MESSAGE-bit zero set
by an earlier flag call. -/
theorem uFlags_monotone_witness :
    Nat.testBit (NotifyIcon.new.flag 1).data.uFlags 0 = true
    ∧ Nat.testBit
        (applyCall (Call.icon 3) (NotifyIcon.new.flag 1)).data.uFlags 0
      = true :=
  ⟨by decide,
    uFlags_monotone (Call.icon 3) (NotifyIcon.new.flag 1) 0 (by decide)⟩

end NotifyIconRs
